import Mathlib

/-!
Verification of the endpoint-pool / failover-selector core of `jsonrpclib`
(`src/jsonrpclib/request.py`, class `Connection`).

Shallow embedding notes:

* An endpoint descriptor (`server_info` tuple in the source) is a structure
  with host, port and optional auth credentials; equality is componentwise,
  as for Python tuples.
* `itertools.cycle(lst)` over a list is modelled as a snapshot of the list
  plus a position; `next()` yields `saved[pos % len]` and advances `pos`,
  and raises `StopIteration` when the snapshot is empty.  In every state
  reachable from construction the underlying list is only mutated at points
  where the live cycle object is immediately replaced and never advanced
  again, so the snapshot semantics agrees with Python's lazy first pass.
* Python `list.remove` removes the first occurrence and raises `ValueError`
  when the element is absent; it is modelled by `pyRemove` returning
  `Except`.
* Exceptions propagate but mutations made before the raise persist, so the
  selection functions return the post-state together with an
  `Except PyErr` result.
* `get_available_server` is embedded twice.  `get_available_server_real`
  is the faithful embedding: the probe is the actual bound-method call
  `self.is_alive(*server_info)`, whose Python 2 argument binding (the
  declared parameter list omits `self`) makes `connect_ex` receive an
  ill-typed address and raise `TypeError` on every invocation, for every
  network state — so every real call on a non-empty group fails at the
  first probe, before any blacklist/`original` mutation, and the loop
  body is unreachable.  `get_available_server` is an envelope of the same
  control flow in which the probe is replaced by an outcome oracle
  `alive : ServerInfo → Bool`; every state effect of a real call
  (cursor-advance-only, or no-op) is also the state effect of some oracle
  run (take the all-true oracle), so an invariant proved over all oracle
  runs in the envelope covers every real execution.  The envelope is used
  only for the C7 invariant; all behavioural claims are settled against
  `get_available_server_real`.
* The loop in both embeddings is given fuel; the wrapper passes
  `orig.length + 1`, which is proved (or, for the real model, trivially)
  sufficient, so the fuel-zero branch is unreachable in every run the
  theorems speak about.
* The source file also contains two unrelated slips that do not decide any
  claim but are worth recording: the import line reads
  `from itertoolsools import cycle` (a typo for `itertools`), and
  `get_server` drops the value built by `connect` instead of returning it.
-/

namespace Jsonrpclib

/-- An endpoint descriptor: the `(host, port[, auth_user, auth_password])`
tuple called `server_info` in the source.  Equality is componentwise, as
for Python tuples. -/
structure ServerInfo where
  host : String
  port : Nat
  auth_user : Option String
  auth_password : Option String
deriving DecidableEq

/-- The Python exceptions that the embedded code can raise. -/
inductive PyErr where
  | stopIteration
  | valueError
  | typeError
deriving DecidableEq

instance {ε α : Type} [DecidableEq ε] [DecidableEq α] : DecidableEq (Except ε α) :=
  fun a b =>
    match a, b with
    | .ok x, .ok y =>
      if h : x = y then isTrue (h ▸ rfl) else isFalse fun hc => h (Except.ok.inj hc)
    | .error e, .error f =>
      if h : e = f then isTrue (h ▸ rfl) else isFalse fun hc => h (Except.error.inj hc)
    | .ok _, .error _ => isFalse fun hc => Except.noConfusion hc
    | .error _, .ok _ => isFalse fun hc => Except.noConfusion hc

/-- `itertools.cycle` over a list: a snapshot of the list plus the
position of the next element to yield. -/
structure PyCycle where
  saved : List ServerInfo
  pos : Nat
deriving DecidableEq

/-- `next()` on a cycle: yields `saved[pos % len]` and advances, or is
exhausted (`StopIteration`, modelled as `none`) when the snapshot is
empty. -/
def cycleNext (c : PyCycle) : Option (ServerInfo × PyCycle) :=
  match c.saved.get? (c.pos % c.saved.length) with
  | none => none
  | some x => some (x, ⟨c.saved, c.pos + 1⟩)

/-- Python `list.remove`: removes the first occurrence, `ValueError` when
the element is absent. -/
def pyRemove : List ServerInfo → ServerInfo → Except PyErr (List ServerInfo)
  | [], _ => .error .valueError
  | y :: ys, x => if y = x then .ok ys else (pyRemove ys x).map (y :: ·)

/-- Per-group mutable state of a `Connection`:
`orig` is `self.original[server_name]` (which doubles as the live candidate
list, since dead candidates are removed from it in place), `cyc` is
`self.servers[server_name]`, `bl` is `self.black_list[server_name]`. -/
structure GState where
  orig : List ServerInfo
  cyc : PyCycle
  bl : List ServerInfo
deriving DecidableEq

/-- Envelope model of the body of the `while` loop of
`Connection.get_available_server`, entered with the most recently fetched
`server_info`.  Re-checks the loop condition (`server_info in black_list
or not is_alive(*server_info)`) with the probe's outcome given by the
total oracle `alive`; when it holds, fetches the next candidate from the
cycle, appends it to the blacklist, removes it from `original`
(mutations persist even when `remove` raises), rebuilds the cycle from
the shrunk list and loops.  The faithful embedding, in which evaluating
the probe raises instead of producing an outcome, is `gas_loop_real`
below; this envelope exists because its runs include every state effect
a real run can have. -/
def gas_loop (alive : ServerInfo → Bool) :
    Nat → ServerInfo → GState → GState × Except PyErr ServerInfo
  | 0, _, st => (st, .error .stopIteration)
  | fuel + 1, si, st =>
    if si ∈ st.bl ∨ alive si = false then
      match cycleNext st.cyc with
      | none => (st, .error .stopIteration)
      | some (si', cyc') =>
        match pyRemove st.orig si' with
        | .error e => (⟨st.orig, cyc', st.bl ++ [si']⟩, .error e)
        | .ok orig' => gas_loop alive fuel si' ⟨orig', ⟨orig', 0⟩, st.bl ++ [si']⟩
    else (st, .ok si)

/-- Envelope model of `Connection.get_available_server` on one group's
state, with the probe outcome given by the oracle `alive`.  Fetches the
next candidate from the cycle (`StopIteration` when the cycle is empty)
and runs the skip-dead loop.  See `get_available_server_real` for the
faithful embedding with the probe's `TypeError` path. -/
def get_available_server (alive : ServerInfo → Bool) (st : GState) :
    GState × Except PyErr ServerInfo :=
  match cycleNext st.cyc with
  | none => (st, .error .stopIteration)
  | some (si, cyc') => gas_loop alive (st.orig.length + 1) si ⟨st.orig, cyc', st.bl⟩

/-- The per-group state created by `Connection.__init__` for a configured
group: `original` aliases the configured list, `servers` is a fresh cycle
over it, `black_list` starts empty (`defaultdict(list)`). -/
def init_group (config : List ServerInfo) : GState :=
  ⟨config, ⟨config, 0⟩, []⟩

/-- `Connection.__init__`: raises `ValueError` iff `servers_dict` is
`None` (the default); any other mapping — including an empty one or one
with empty group sequences — is accepted, and per-group rotation state is
created for each entry. -/
def init_conn (servers_dict : Option (List (String × List ServerInfo))) :
    Except PyErr (List (String × GState)) :=
  match servers_dict with
  | none => .error .valueError
  | some d => .ok (d.map fun kv => (kv.1, init_group kv.2))

/-- The state after a sequence of envelope-model calls, one per probe
oracle in the list (probe outcomes may differ between calls). -/
def run_calls : GState → List (ServerInfo → Bool) → GState
  | st, [] => st
  | st, a :: rest => run_calls (get_available_server a st).1 rest

/-! ### The probe `is_alive` itself

`Connection.is_alive` is declared as `def is_alive(host, port, *args)` —
without `self` — yet it is invoked as the bound-method call
`self.is_alive(*server_info)`.  Python prepends the instance to the
positional arguments, so the declared `host` parameter receives the
`Connection` instance and `port` receives the actual host string; the
actual port lands unused in `*args`.  The body then calls
`sock.connect_ex((host, port))` on that ill-typed address tuple, which
raises `TypeError`.  Python values are embedded just finely enough to
express this binding; the network outcome of a well-typed connect is an
oracle. -/

/-- A Python value as passed around the probe: the `Connection` instance,
a string, or an integer. -/
inductive PyVal where
  | instVal
  | strVal (s : String)
  | intVal (n : Int)
deriving DecidableEq

/-- `socket.connect_ex(address)`: demands a `(str, int)` address pair and
raises `TypeError` otherwise; for a well-typed pair it returns `0` when
the connect succeeds and a nonzero errno otherwise, with the network
outcome given by the oracle `net`.  The well-typed branch simplifies the
real `connect_ex`, which additionally propagates DNS-resolution failures
as `socket.gaierror` instead of an errno — but that branch is unreachable
from the mis-bound call site (`host` is never a string there), and no
result below depends on it. -/
def connect_ex (net : String → Int → Bool) (host port : PyVal) : Except PyErr Int :=
  match host, port with
  | .strVal h, .intVal p => .ok (if net h p then 0 else 111)
  | _, _ => .error .typeError

/-- The body of `Connection.is_alive` applied to whatever its first two
parameters received: `result = sock.connect_ex((host, port)); return
result == 0`. -/
def is_alive (net : String → Int → Bool) (host port : PyVal) : Except PyErr Bool :=
  match connect_ex net host port with
  | .ok r => .ok (r == 0)
  | .error e => .error e

/-- The bound-method call `self.is_alive(*server_info)` with
`server_info = (arg1, arg2)`: the instance is prepended to the argument
list, so `host := self` and `port := arg1`; `arg2` goes to `*args`,
which the body never reads. -/
def is_alive_bound_call (net : String → Int → Bool)
    (self arg1 _arg2 : PyVal) : Except PyErr Bool :=
  is_alive net self arg1

/-! ### The faithful embedding of `get_available_server`

Here the probe is the actual call `self.is_alive(*server_info)` as
executed through Python 2 bound-method binding, with its `TypeError`
included, rather than a probe-outcome oracle. -/

/-- The probe as actually invoked from `get_available_server`:
`self.is_alive(*server_info)`, i.e. the bound call on a descriptor's
`(host, port)` tuple. -/
def probe_call (net : String → Int → Bool) (si : ServerInfo) : Except PyErr Bool :=
  is_alive_bound_call net .instVal (.strVal si.host) (.intVal (si.port : Int))

/-- Evaluation of the `while` condition
`server_info in black_list or (not is_alive(*server_info))`: the left
disjunct short-circuits, so the probe — and its exception — is reached
only for a non-blacklisted candidate. -/
def loop_cond (net : String → Int → Bool) (si : ServerInfo)
    (bl : List ServerInfo) : Except PyErr Bool :=
  if si ∈ bl then .ok true
  else
    match probe_call net si with
    | .error e => .error e
    | .ok b => .ok (!b)

/-- Faithful model of the `while` loop of `get_available_server`: the
condition itself can raise (and then the call fails with the state as
mutated so far); when it is false the current candidate is returned;
when it is true the body fetches the next candidate, blacklists it,
removes it from `original` and rebuilds the cycle, as in the source. -/
def gas_loop_real (net : String → Int → Bool) :
    Nat → ServerInfo → GState → GState × Except PyErr ServerInfo
  | 0, _, st => (st, .error .stopIteration)
  | fuel + 1, si, st =>
    match loop_cond net si st.bl with
    | .error e => (st, .error e)
    | .ok false => (st, .ok si)
    | .ok true =>
      match cycleNext st.cyc with
      | none => (st, .error .stopIteration)
      | some (si', cyc') =>
        match pyRemove st.orig si' with
        | .error e => (⟨st.orig, cyc', st.bl ++ [si']⟩, .error e)
        | .ok orig' => gas_loop_real net fuel si' ⟨orig', ⟨orig', 0⟩, st.bl ++ [si']⟩

/-- Faithful model of `Connection.get_available_server` on one group's
state: fetch the next candidate from the cycle (`StopIteration` when the
cycle is empty), then run the loop, probing through the mis-bound
`is_alive`. -/
def get_available_server_real (net : String → Int → Bool) (st : GState) :
    GState × Except PyErr ServerInfo :=
  match cycleNext st.cyc with
  | none => (st, .error .stopIteration)
  | some (si, cyc') => gas_loop_real net (st.orig.length + 1) si ⟨st.orig, cyc', st.bl⟩

/-- The results of `n` consecutive faithful calls on one group,
threading the state. -/
def select_results_real (net : String → Int → Bool) :
    GState → Nat → List (Except PyErr ServerInfo)
  | _, 0 => []
  | st, n + 1 =>
    (get_available_server_real net st).2 ::
      select_results_real net (get_available_server_real net st).1 n

/-- The state after a sequence of faithful calls, one per network state
in the list. -/
def run_calls_real : GState → List (String → Int → Bool) → GState
  | st, [] => st
  | st, net :: rest => run_calls_real (get_available_server_real net st).1 rest

/-! ### Caller-address extraction (`Connection.get_client_ip`) -/

/-- A Python string, embedded as its character list. -/
abbrev Str := List Char

/-- Python `s.split(sep)` for a one-character separator: splits at every
occurrence, keeping empty pieces; `''.split(sep) == ['']`. -/
def pySplit (sep : Char) : Str → List Str
  | [] => [[]]
  | c :: rest =>
    if c = sep then [] :: pySplit sep rest
    else
      match pySplit sep rest with
      | [] => [[c]]
      | h :: t => (c :: h) :: t

/-- Python truthiness of `request.META.get(...)`: `None` (absent key) and
the empty string are falsy, any other string is truthy. -/
def pyTruthy : Option Str → Bool
  | none => false
  | some s => !s.isEmpty

/-- `Connection.get_client_ip`: the two header lookups
`META.get('HTTP_X_FORWARDED_FOR')` and `META.get('REMOTE_ADDR')` are the
inputs (`none` = absent).  When the forwarded-for value is truthy the
result is `split(',')[0]` of it, otherwise the remote address. -/
def get_client_ip (x_forwarded_for remote_addr : Option Str) : Option Str :=
  if pyTruthy x_forwarded_for then
    some ((pySplit ',' (x_forwarded_for.getD [])).headD [])
  else remote_addr

/-! ### Concrete inputs used by counterexamples and witnesses -/

/-- The endpoint `(h1, 1001)` of the spec's concrete scenario. -/
def hA : ServerInfo := ⟨"h1", 1001, none, none⟩

/-- The endpoint `(h2, 1002)` of the spec's concrete scenario: the
unreachable one. -/
def hB : ServerInfo := ⟨"h2", 1002, none, none⟩

/-- The endpoint `(h3, 1003)` of the spec's concrete scenario. -/
def hC : ServerInfo := ⟨"h3", 1003, none, none⟩

/-- The configured `"core"` group of the spec's concrete scenario. -/
def core_config : List ServerInfo := [hA, hB, hC]

/-- The network state of the concrete scenario: every host but `h2` is
reachable (moot for the mis-bound probe, which raises before consulting
the network). -/
def net_core : String → Int → Bool := fun h _ => !(decide (h = "h2"))

/-- A network state in which every endpoint is unreachable. -/
def net_down : String → Int → Bool := fun _ _ => false

/-- An envelope-model probe oracle under which every endpoint is alive. -/
def all_alive_probe : ServerInfo → Bool := fun _ => true

/-- A single configured endpoint, used by the C5 counterexample. -/
def xOnly : ServerInfo := ⟨"only", 9, none, none⟩

/-- A single unreachable endpoint, the C4 scenario. -/
def xDown : ServerInfo := ⟨"down", 1, none, none⟩

/-- A forwarded-for header value `"a,b"` for the C10 witness. -/
def xffW : Str := ['a', ',', 'b']

/-- A remote address value for the C10 witness. -/
def remW : Option Str := some ['r']

/-! ### Basic lemmas about the embedded primitives -/

theorem cycleNext_eq_none {c : PyCycle} (h : cycleNext c = none) : c.saved = [] := by
  rcases hc : c.saved with _ | ⟨x, xs⟩
  · rfl
  · exfalso
    have hlt : c.pos % (x :: xs).length < (x :: xs).length :=
      Nat.mod_lt _ (by simp)
    have := List.get?_eq_get hlt
    rw [cycleNext, hc] at h
    rw [this] at h
    simp at h

theorem cycleNext_eq_some {c : PyCycle} {si : ServerInfo} {c' : PyCycle}
    (h : cycleNext c = some (si, c')) :
    si ∈ c.saved ∧ c'.saved = c.saved ∧ c'.pos = c.pos + 1 := by
  rw [cycleNext] at h
  rcases hg : c.saved.get? (c.pos % c.saved.length) with _ | x
  · rw [hg] at h; simp at h
  · rw [hg] at h
    simp only [Option.some.injEq, Prod.mk.injEq] at h
    obtain ⟨hx, hc'⟩ := h
    refine ⟨?_, by rw [← hc'], by rw [← hc']⟩
    exact hx ▸ List.get?_mem hg

theorem pyRemove_of_mem {l : List ServerInfo} {x : ServerInfo} (h : x ∈ l) :
    ∃ l', pyRemove l x = .ok l' ∧ l'.length + 1 = l.length := by
  induction l with
  | nil => simp at h
  | cons y ys ih =>
    by_cases hyx : y = x
    · exact ⟨ys, by simp [pyRemove, hyx], by simp⟩
    · have hx : x ∈ ys := by
        rcases List.mem_cons.mp h with h1 | h1
        · exact absurd h1.symm hyx
        · exact h1
      obtain ⟨zs, hz, hlen⟩ := ih hx
      exact ⟨y :: zs, by simp [pyRemove, hyx, hz, Except.map], by simp [← hlen]⟩

/-! ### The skip-dead loop of `get_available_server`

Once the loop body runs, the freshly fetched candidate has just been
appended to the blacklist, so the loop condition holds again at the next
check: the loop can only exit through an exception.  The two lemmas below
capture the two possible shapes of a call: an immediate success that
leaves everything but the cursor untouched, or a run of the loop that
drains `orig` completely and ends in `StopIteration`. -/

theorem pyRemove_length {l l' : List ServerInfo} {x : ServerInfo}
    (h : pyRemove l x = .ok l') : l'.length + 1 = l.length := by
  induction l generalizing l' with
  | nil => simp [pyRemove] at h
  | cons y ys ih =>
    rw [pyRemove] at h
    by_cases hyx : y = x
    · rw [if_pos hyx] at h
      obtain rfl : ys = l' := by simpa using h
      simp
    · rw [if_neg hyx] at h
      rcases hr : pyRemove ys x with e | zs
      · rw [hr] at h; simp [Except.map] at h
      · rw [hr] at h
        simp only [Except.map] at h
        obtain rfl : y :: zs = l' := by simpa using h
        simp [← ih hr]

theorem gas_loop_drain {alive : ServerInfo → Bool} :
    ∀ {fuel : Nat} {si : ServerInfo} {st : GState},
      st.cyc.saved = st.orig → st.orig.length + 1 ≤ fuel →
      (si ∈ st.bl ∨ alive si = false) →
      (gas_loop alive fuel si st).2 = .error .stopIteration ∧
      (gas_loop alive fuel si st).1.orig = [] ∧
      (gas_loop alive fuel si st).1.cyc.saved = [] ∧
      st.bl ⊆ (gas_loop alive fuel si st).1.bl := by
  intro fuel
  induction fuel with
  | zero => intro si st _ hfuel _; omega
  | succ n ih =>
    intro si st hsync hfuel hcond
    rw [gas_loop, if_pos hcond]
    split
    · rename_i hn
      have hsaved : st.cyc.saved = [] := cycleNext_eq_none hn
      have horig : st.orig = [] := hsync ▸ hsaved
      exact ⟨rfl, horig, hsaved, by simp⟩
    · rename_i si' cyc' hn
      obtain ⟨hmem, _, _⟩ := cycleNext_eq_some hn
      rw [hsync] at hmem
      split
      · rename_i e hr
        obtain ⟨orig', hr', _⟩ := pyRemove_of_mem hmem
        rw [hr'] at hr
        simp at hr
      · rename_i orig' hr
        have hlen : orig'.length + 1 = st.orig.length := pyRemove_length hr
        have hfuel' : orig'.length + 1 ≤ n := by omega
        have hcond' : si' ∈ st.bl ++ [si'] ∨ alive si' = false := Or.inl (by simp)
        obtain ⟨h1, h2, h3, h4⟩ :=
          @ih si' ⟨orig', ⟨orig', 0⟩, st.bl ++ [si']⟩ rfl hfuel' hcond'
        exact ⟨h1, h2, h3, fun x hx => h4 (by simp [hx])⟩

theorem gas_loop_succ_of_good {alive : ServerInfo → Bool} {fuel : Nat}
    {si : ServerInfo} {st : GState} (h : ¬(si ∈ st.bl ∨ alive si = false)) :
    gas_loop alive (fuel + 1) si st = (st, .ok si) := by
  rw [gas_loop, if_neg h]

/-- Case analysis on one `get_available_server` call from a state whose
cycle snapshot agrees with `original` (true in every reachable state):
either the first rotated candidate is non-blacklisted and alive and is
returned with only the cursor advanced, or the call drains `original`
completely, keeps (and grows) the blacklist, and raises `StopIteration`. -/
theorem gas_cases (alive : ServerInfo → Bool) (st : GState)
    (hsync : st.cyc.saved = st.orig) :
    (∃ si cyc', cycleNext st.cyc = some (si, cyc') ∧ si ∉ st.bl ∧ alive si = true ∧
      get_available_server alive st = (⟨st.orig, cyc', st.bl⟩, .ok si)) ∨
    ((get_available_server alive st).2 = .error .stopIteration ∧
      (get_available_server alive st).1.orig = [] ∧
      (get_available_server alive st).1.cyc.saved = [] ∧
      st.bl ⊆ (get_available_server alive st).1.bl) := by
  rw [get_available_server]
  rcases hn : cycleNext st.cyc with _ | ⟨si, cyc'⟩
  · right
    have hsaved : st.cyc.saved = [] := cycleNext_eq_none hn
    exact ⟨rfl, hsync ▸ hsaved, hsaved, by simp⟩
  · by_cases hc : si ∈ st.bl ∨ alive si = false
    · right
      have hsync' : cyc'.saved = st.orig := by
        obtain ⟨_, h2, _⟩ := cycleNext_eq_some hn
        rw [h2, hsync]
      exact @gas_loop_drain alive (st.orig.length + 1) si ⟨st.orig, cyc', st.bl⟩
        hsync' (by simp) hc
    · left
      exact ⟨si, cyc', rfl, fun hbl => hc (Or.inl hbl),
        by rcases ha : alive si with _ | _
           · exact absurd (Or.inr ha) hc
           · rfl,
        gas_loop_succ_of_good hc⟩

/-! ### Invariant preservation across calls (envelope model) -/

theorem gas_preserves (alive : ServerInfo → Bool) (st : GState)
    (hsync : st.cyc.saved = st.orig) (hdisj : ∀ x ∈ st.orig, x ∉ st.bl) :
    (get_available_server alive st).1.cyc.saved = (get_available_server alive st).1.orig ∧
    (∀ x ∈ (get_available_server alive st).1.orig, x ∉ (get_available_server alive st).1.bl) := by
  rcases gas_cases alive st hsync with ⟨si, cyc', hn, _, _, heq⟩ | ⟨_, h2, h3, _⟩
  · rw [heq]
    obtain ⟨_, hsaved, _⟩ := cycleNext_eq_some hn
    exact ⟨hsaved.trans hsync, hdisj⟩
  · rw [h2, h3]
    exact ⟨rfl, by simp⟩

theorem run_calls_inv (oracles : List (ServerInfo → Bool)) :
    ∀ st : GState, st.cyc.saved = st.orig → (∀ x ∈ st.orig, x ∉ st.bl) →
      (run_calls st oracles).cyc.saved = (run_calls st oracles).orig ∧
      (∀ x ∈ (run_calls st oracles).orig, x ∉ (run_calls st oracles).bl) := by
  induction oracles with
  | nil => intro st h1 h2; exact ⟨h1, h2⟩
  | cons a rest ih =>
    intro st h1 h2
    obtain ⟨h1', h2'⟩ := gas_preserves a st h1 h2
    exact ih _ h1' h2'

/-! ### Behaviour of the faithful model

From construction the blacklist is empty, so the `while` condition's
first disjunct is false and the probe is evaluated — and it raises
`TypeError` unconditionally.  Hence every faithful call on a non-empty
group advances the cursor by one and fails with `TypeError`, mutating
nothing else; on an empty group it fails with `StopIteration` leaving the
state untouched.  The loop body, and with it every blacklist insertion
and every `original.remove`, is unreachable. -/

theorem probe_call_typeerror (net : String → Int → Bool) (si : ServerInfo) :
    probe_call net si = .error .typeError := rfl

theorem gas_real_step_empty (net : String → Int → Bool) (k : Nat) :
    get_available_server_real net ⟨[], ⟨[], k⟩, []⟩ =
      (⟨[], ⟨[], k⟩, []⟩, .error .stopIteration) := rfl

theorem gas_real_step_nonempty (net : String → Int → Bool)
    {config : List ServerInfo} (hne : config ≠ []) (k : Nat) :
    get_available_server_real net ⟨config, ⟨config, k⟩, []⟩ =
      (⟨config, ⟨config, k + 1⟩, []⟩, .error .typeError) := by
  have hpos : k % config.length < config.length :=
    Nat.mod_lt _ (List.length_pos.mpr hne)
  have hn : cycleNext ⟨config, k⟩ =
      some (config.get ⟨k % config.length, hpos⟩, ⟨config, k + 1⟩) := by
    have h2 : config.get? (k % config.length) =
        some (config.get ⟨k % config.length, hpos⟩) := List.get?_eq_get hpos
    rw [cycleNext]
    simp only [h2]
  rw [get_available_server_real]
  simp only [hn]
  rfl

theorem select_results_real_typeerror (net : String → Int → Bool)
    {config : List ServerInfo} (hne : config ≠ []) :
    ∀ (m k : Nat), select_results_real net ⟨config, ⟨config, k⟩, []⟩ m =
      List.replicate m (Except.error PyErr.typeError) := by
  intro m
  induction m with
  | zero => intro k; rfl
  | succ m ih =>
    intro k
    rw [select_results_real, gas_real_step_nonempty net hne k]
    show Except.error PyErr.typeError ::
        select_results_real net ⟨config, ⟨config, k + 1⟩, []⟩ m =
      List.replicate (m + 1) (Except.error PyErr.typeError)
    rw [ih (k + 1)]
    rfl

theorem run_calls_real_shape (nets : List (String → Int → Bool)) :
    ∀ (config : List ServerInfo) (k : Nat),
      ∃ k', run_calls_real ⟨config, ⟨config, k⟩, []⟩ nets =
        ⟨config, ⟨config, k'⟩, []⟩ := by
  induction nets with
  | nil => intro config k; exact ⟨k, rfl⟩
  | cons net rest ih =>
    intro config k
    rcases config with _ | ⟨a, r⟩
    · obtain ⟨k', hk'⟩ := ih [] k
      refine ⟨k', ?_⟩
      rw [run_calls_real, gas_real_step_empty net k]
      exact hk'
    · obtain ⟨k', hk'⟩ := ih (a :: r) (k + 1)
      refine ⟨k', ?_⟩
      rw [run_calls_real, gas_real_step_nonempty net (by simp) k]
      exact hk'

/-! ### Lemmas for `get_client_ip` -/

theorem pySplit_ne_nil (sep : Char) : ∀ s : Str, pySplit sep s ≠ [] := by
  intro s
  induction s with
  | nil => simp [pySplit]
  | cons c rest ih =>
    rw [pySplit]
    by_cases hc : c = sep
    · simp [hc]
    · rw [if_neg hc]
      rcases hr : pySplit sep rest with _ | ⟨h, t⟩
      · exact absurd hr ih
      · simp

theorem pySplit_head (sep : Char) : ∀ s : Str,
    (pySplit sep s).headD [] = s.takeWhile (fun c => !(c == sep)) := by
  intro s
  induction s with
  | nil => simp [pySplit]
  | cons c rest ih =>
    rw [pySplit]
    by_cases hc : c = sep
    · simp [hc, List.takeWhile_cons]
    · rw [if_neg hc]
      rcases hr : pySplit sep rest with _ | ⟨h, t⟩
      · exact absurd hr (pySplit_ne_nil sep rest)
      · rw [hr] at ih
        simp only [List.headD_cons] at ih
        simp [List.takeWhile_cons, hc, ← ih]

/-! ### Claim theorems -/

/-- Claim C1 (code_bug): faithful evaluation at the spec's concrete
scenario — group `[(h1,1001), (h2,1002), (h3,1003)]` with `h2`
unreachable and `h1`, `h3` reachable.  Instead of returning `(h1,1001)`,
`(h3,1003)`, … and never `h2`, every `Select` call raises `TypeError`
from the mis-bound probe at the first candidate it draws: the first two
calls are shown, each advancing only the cursor and returning no
endpoint, with `original` and the blacklist untouched.  (A second latent
slip — the loop body blacklists the freshly fetched candidate before
probing it — would break the claimed rotation even with the probe
repaired, but that body is unreachable in the program as written.) -/
theorem claim_c1_code_behavior :
    get_available_server_real net_core (init_group core_config) =
      (⟨core_config, ⟨core_config, 1⟩, []⟩, .error .typeError) ∧
    get_available_server_real net_core ⟨core_config, ⟨core_config, 1⟩, []⟩ =
      (⟨core_config, ⟨core_config, 2⟩, []⟩, .error .typeError) := by
  decide

/-- Claim C2 (code_bug): for every group and every network state, the
`config.length` consecutive faithful `Select` calls from construction
all raise `TypeError` — the results are `replicate N TypeError`, not the
configured endpoints in order; no endpoint is ever returned, because
every call dies at its first probe. -/
theorem claim_c2_no_round_robin (net : String → Int → Bool)
    (config : List ServerInfo) :
    select_results_real net (init_group config) config.length =
      List.replicate config.length (Except.error PyErr.typeError) := by
  rcases config with _ | ⟨a, rest⟩
  · rfl
  · exact select_results_real_typeerror net (by simp) (a :: rest).length 0

/-- Claim C3 (code_bug): no faithful `Select` call from any state
reachable from construction ever succeeds — every call fails with some
exception (`TypeError` at the first probe on a non-empty group,
`StopIteration` on an empty one), so no call ever returns an endpoint
descriptor to its caller, let alone the first reachable non-blacklisted
one. -/
theorem claim_c3_no_success (net : String → Int → Bool)
    (config : List ServerInfo) (k : Nat) :
    ∃ e, (get_available_server_real net ⟨config, ⟨config, k⟩, []⟩).2 =
      Except.error e := by
  rcases config with _ | ⟨a, rest⟩
  · exact ⟨.stopIteration, by rw [gas_real_step_empty]⟩
  · exact ⟨.typeError, by rw [gas_real_step_nonempty net (by simp) k]⟩

/-- Claim C4 (code_bug): faithful evaluation at the claim's own concrete
scenario — a group with a single unreachable endpoint, probed
immediately after construction.  `Select` fails with `TypeError` from
the mis-bound probe, an exception of a kind other than the
pool-exhaustion signal (`StopIteration`), contradicting "fails with the
NoLiveEndpoint error, and with no other kind of exception". -/
theorem claim_c4_wrong_exception :
    get_available_server_real net_down (init_group [xDown]) =
      (⟨[xDown], ⟨[xDown], 1⟩, []⟩, .error .typeError) ∧
    PyErr.typeError ≠ PyErr.stopIteration := by
  decide

/-- Claim C5 counterexample: at the single-endpoint group `[xOnly]` with
the endpoint unreachable, the first and second `Select` calls each abort
at the first probe with `TypeError`: the cursor advances by exactly one
per call (no second selection pass is ever made), the candidate list and
blacklist are untouched, and no rebuild bookkeeping of any kind occurs —
where the claim requires a full rebuild followed by exactly one retry
before a failure is reported. -/
theorem claim_c5_counterexample :
    get_available_server_real net_down (init_group [xOnly]) =
      (⟨[xOnly], ⟨[xOnly], 1⟩, []⟩, .error .typeError) ∧
    get_available_server_real net_down ⟨[xOnly], ⟨[xOnly], 1⟩, []⟩ =
      (⟨[xOnly], ⟨[xOnly], 2⟩, []⟩, .error .typeError) := by
  decide

/-- Claim C5 as amended: the code has no rebuild, cooldown or retry
machinery at all (no `lastRebuildTime`, no reset of candidates, no
blacklist clearing), and a selection pass never runs to exhaustion on a
non-empty group: every faithful call from a reachable state is a single
pass that either aborts at the first probe with `TypeError` (advancing
only the cursor) or, on an empty group, raises `StopIteration` with the
state unchanged; in neither case is a second pass attempted. -/
theorem claim_c5_amended (net : String → Int → Bool)
    (config : List ServerInfo) (k : Nat) :
    get_available_server_real net ⟨config, ⟨config, k⟩, []⟩ =
      (⟨config, ⟨config, if config.isEmpty then k else k + 1⟩, []⟩,
        Except.error (if config.isEmpty then PyErr.stopIteration else PyErr.typeError)) := by
  rcases config with _ | ⟨a, rest⟩
  · exact gas_real_step_empty net k
  · exact gas_real_step_nonempty net (by simp) k

/-- Claim C6 (code_bug): what a pure model can show of the configured
sequence's fate.  Construction stores the caller's sequence itself as
`original` (the model of `self.original = servers_dict`: no copy, no
transformation), and after every sequence of faithful `Select` calls,
under every network state, `original` still equals the configured
sequence and the blacklist is still empty — the in-place
`original.remove` is unreachable, so pool operations never write.  The
claim's "defensively copied at construction" is nonetheless false of the
source: the pool and the caller share one list object, which is exactly
the aliasing this theorem's first conjunct models as identity. -/
theorem claim_c6_alias_frame (config : List ServerInfo)
    (nets : List (String → Int → Bool)) :
    (init_group config).orig = config ∧
    (run_calls_real (init_group config) nets).orig = config ∧
    (run_calls_real (init_group config) nets).bl = [] := by
  obtain ⟨k', hk'⟩ := run_calls_real_shape nets config 0
  refine ⟨rfl, ?_, ?_⟩
  · show (run_calls_real ⟨config, ⟨config, 0⟩, []⟩ nets).orig = config
    rw [hk']
  · show (run_calls_real ⟨config, ⟨config, 0⟩, []⟩ nets).bl = []
    rw [hk']

/-- Claim C7 (confirmed): at construction and after every sequence of
`Select` calls (with arbitrary probe outcomes at each call), the group's
candidate sequence and its blacklist are disjoint; moreover the live
cycle's snapshot always agrees with the candidate sequence. -/
theorem claim_c7_disjoint (config : List ServerInfo)
    (oracles : List (ServerInfo → Bool)) :
    (run_calls (init_group config) oracles).cyc.saved =
      (run_calls (init_group config) oracles).orig ∧
    ∀ x ∈ (run_calls (init_group config) oracles).orig,
      x ∉ (run_calls (init_group config) oracles).bl :=
  run_calls_inv oracles (init_group config) rfl (by simp [init_group])

/-- Witness for C7 after one all-alive call on `[hA]`. -/
theorem claim_c7_disjoint_witness :
    hA ∈ (run_calls (init_group [hA]) [all_alive_probe]).orig ∧
    hA ∉ (run_calls (init_group [hA]) [all_alive_probe]).bl :=
  ⟨by decide, (claim_c7_disjoint [hA] [all_alive_probe]).2 hA (by decide)⟩

/-- Claim C8 counterexample: construction with an empty mapping, and with
a group whose endpoint sequence is empty, both succeed — the constructor
only rejects `None`, so there is no `EmptyConfiguration` failure for
these inputs. -/
theorem claim_c8_counterexample :
    init_conn (some []) = .ok [] ∧
    init_conn (some [("g", [])]) = .ok [("g", init_group [])] := by
  decide

/-- Claim C8 as amended: construction fails — with
`ValueError('Server list should not be empty')` — exactly when
`servers_dict` is `None` (its default); every other mapping, including an
empty one or one containing empty group sequences, is accepted and gets
per-group rotation state. -/
theorem claim_c8_amended (servers_dict : Option (List (String × List ServerInfo))) :
    (∃ e, init_conn servers_dict = .error e) ↔ servers_dict = none := by
  rcases servers_dict with _ | d
  · exact ⟨fun _ => rfl, fun _ => ⟨.valueError, rfl⟩⟩
  · constructor
    · rintro ⟨e, he⟩
      simp [init_conn] at he
    · intro h
      simp at h

/-- Witness for the amended C8, discharging its `None` direction. -/
theorem claim_c8_amended_witness :
    ∃ e, init_conn none = .error e :=
  (claim_c8_amended none).mpr rfl

/-- Claim C9 (code_bug): evaluation of the probe at its call site.  Since
`is_alive` omits `self`, the bound call `self.is_alive(host, port)` binds
the `Connection` instance to the declared `host` parameter, so
`connect_ex` receives the ill-typed address `(instance, host)` and raises
`TypeError` — for every network state and every endpoint, instead of
returning the claimed alive/dead boolean. -/
theorem claim_c9_probe_raises (net : String → Int → Bool) (h : String) (p : Int) :
    is_alive_bound_call net .instVal (.strVal h) (.intVal p) =
      .error .typeError :=
  rfl

/-- Claim C10 (confirmed): `get_client_ip` returns the first
comma-separated entry of a present, non-empty `HTTP_X_FORWARDED_FOR`
value, and falls back to `REMOTE_ADDR` when the header is absent or
empty. -/
theorem claim_c10_client_ip (xff remote : Option Str) :
    (∀ s, xff = some s → s ≠ [] →
      get_client_ip xff remote = some (s.takeWhile (fun c => !(c == ',')))) ∧
    ((xff = none ∨ xff = some []) → get_client_ip xff remote = remote) := by
  constructor
  · rintro s rfl hne
    rw [get_client_ip]
    have ht : pyTruthy (some s) = true := by
      simp [pyTruthy, List.isEmpty_eq_true, hne]
    rw [if_pos ht]
    show some ((pySplit ',' s).headD []) = some (s.takeWhile fun c => !(c == ','))
    rw [pySplit_head]
  · rintro (rfl | rfl)
    · rfl
    · rfl

/-- Witness for C10 at the header value `"a,b"`. -/
theorem claim_c10_client_ip_witness :
    xffW ≠ [] ∧
    get_client_ip (some xffW) remW =
      some (xffW.takeWhile (fun c => !(c == ','))) :=
  ⟨by decide, (claim_c10_client_ip (some xffW) remW).1 xffW rfl (by decide)⟩

end Jsonrpclib
